import Mathlib

/-!
Shallow embedding of `src/app.py` (a Flask + SQLite cafe-management app).

The three SQLite tables (`menu`, `user`, `checkout`) are modelled as lists of
typed rows inside a `Store`, auto-assigned row identities as a monotone
counter per table.  Each HTTP POST handler becomes a pure function from the
submitted form fields and the current store to an `Outcome` (what the handler
flashes / aborts with) and the next store.  The schema migration `init_db`
is modelled separately over an untyped table representation, since it
operates on column lists rather than typed rows.
-/

/-- Python `str.strip()`: drop whitespace from both ends (structural
recursion over the character list, so that concrete instances evaluate). -/
def String.strip (s : String) : String :=
  ⟨((s.data.dropWhile Char.isWhitespace).reverse.dropWhile Char.isWhitespace).reverse⟩

namespace Cafe

/-- One cell of an untyped SQLite row: either an integer or a text value. -/
inductive Value where
  | int (n : Int)
  | text (s : String)
deriving DecidableEq, Repr

/-- Result of one request handler, as the caller observes it:
a flashed success message and redirect, a flashed "danger" validation
message and redirect, an `abort(404)`, or an uncaught exception from the
storage layer (surfaced as an HTTP 500). -/
inductive Outcome where
  | success (msg : String)
  | validationError (msg : String)
  | notFound
  | storageError
deriving DecidableEq, Repr

/-- Did the handler report success? -/
def Outcome.isSuccess : Outcome → Bool
  | .success _ => true
  | _ => false

/-- Did the handler reject the request as a validation failure? -/
def Outcome.isValidation : Outcome → Bool
  | .validationError _ => true
  | _ => false

/-- Python `x or d` on an optional form field (`request.form.get` returns
`None` when the field is absent; the empty string is falsy). -/
def pyOr (o : Option String) (d : String) : String :=
  match o with
  | none => d
  | some s => if s = "" then d else s

/-- Numeric value of an ASCII digit character. -/
def digitVal (c : Char) : Option Nat :=
  if c.isDigit then some (c.toNat - 48) else none

/-- Digit run after the first digit: CPython `int()` allows a single
underscore between two digits, never doubled, leading or trailing. -/
def pyIntRest : List Char → Nat → Option Nat
  | [], acc => some acc
  | '_' :: c :: rest, acc =>
    match digitVal c with
    | some d => pyIntRest rest (acc * 10 + d)
    | none => none
  | c :: rest, acc =>
    match digitVal c with
    | some d => pyIntRest rest (acc * 10 + d)
    | none => none

/-- An unsigned digit string (at least one digit, first character a digit). -/
def pyIntNat : List Char → Option Nat
  | [] => none
  | c :: rest =>
    match digitVal c with
    | some d => pyIntRest rest d
    | none => none

/-- CPython `int(s)` on an ASCII string: surrounding whitespace, an optional
sign, then digits (underscore separators allowed); `none` models the
`ValueError` raised on anything else. -/
def pyInt (s : String) : Option Int :=
  match s.strip.toList with
  | '+' :: rest => (pyIntNat rest).map Int.ofNat
  | '-' :: rest => (pyIntNat rest).map (fun n => -(Int.ofNat n))
  | cs => (pyIntNat cs).map Int.ofNat

/-- A row of the `menu` table (`IsAvailable` stored as 0/1 as in SQLite). -/
structure MenuItem where
  id : Int
  name : String
  price : Int
  category : String
  isAvailable : Int
deriving DecidableEq, Repr

/-- A row of the `user` (customer) table. -/
structure Customer where
  id : Int
  firstName : String
  lastName : String
  phone : Int
  createdAt : String
deriving DecidableEq, Repr

/-- A row of the `checkout` (order) table. -/
structure Order where
  id : Int
  userId : Int
  itemId : Int
  quantity : Int
  itemPrice : Int
  totalPrice : Int
  status : String
  notes : Option String
  createdAt : String
deriving DecidableEq, Repr

/-- The typed view of the SQLite database: the three tables in insertion
order plus the next auto-assigned identity of each. -/
structure Store where
  menu : List MenuItem
  users : List Customer
  checkout : List Order
  nextMenuId : Int
  nextUserId : Int
  nextOrderId : Int
deriving DecidableEq, Repr

/-- The store of a freshly created database. -/
def emptyStore : Store := ⟨[], [], [], 1, 1, 1⟩

/-- Modelled from the spec: the missing `schema.sql` declares foreign keys
from `checkout` to `user` and `menu`, and `get_conn` turns enforcement on
with `PRAGMA foreign_keys = ON`, so the storage layer accepts a checkout
write only when both referenced rows exist. -/
def fkOk (s : Store) (userId itemId : Int) : Bool :=
  s.users.any (fun u => u.id = userId) && s.menu.any (fun m => m.id = itemId)

/-- Form fields of the menu create / update requests. -/
structure MenuForm where
  name : Option String
  category : Option String
  price : Option String
  is_available : Option String
deriving Repr

/-- Form fields of the customer create / update requests. -/
structure CustomerForm where
  first_name : Option String
  last_name : Option String
  phone : Option String
deriving Repr

/-- Form fields of the order create / update requests. -/
structure OrderForm where
  user_id : Option String
  item_id : Option String
  quantity : Option String
  status : Option String
  notes : Option String
deriving Repr

/-- `POST /menu` (`menu_create` in `src/app.py`). -/
def menu_create (f : MenuForm) (s : Store) : Outcome × Store :=
  let name := (pyOr f.name "").strip
  let category := (pyOr f.category "عمومی").strip
  let price_raw := (pyOr f.price "0").strip
  let is_available : Int := if f.is_available = some "on" then 1 else 0
  if name = "" then
    (.validationError "نام آیتم نمی‌تواند خالی باشد.", s)
  else
    match pyInt price_raw with
    | none => (.validationError "قیمت نامعتبر است.", s)
    | some price =>
      if price < 0 then (.validationError "قیمت نامعتبر است.", s)
      else
        (.success "آیتم منو با موفقیت اضافه شد.",
          { s with
            menu := s.menu ++ [⟨s.nextMenuId, name, price, category, is_available⟩],
            nextMenuId := s.nextMenuId + 1 })

/-- `POST /menu/<item_id>/update` (`menu_update` in `src/app.py`). -/
def menu_update (item_id : Int) (f : MenuForm) (s : Store) : Outcome × Store :=
  let name := (pyOr f.name "").strip
  let category := (pyOr f.category "عمومی").strip
  let price_raw := (pyOr f.price "0").strip
  let is_available : Int := if f.is_available = some "on" then 1 else 0
  if (s.menu.find? (fun m => m.id = item_id)).isNone then
    (.notFound, s)
  else if name = "" then
    (.validationError "نام آیتم نمی‌تواند خالی باشد.", s)
  else
    match pyInt price_raw with
    | none => (.validationError "قیمت نامعتبر است.", s)
    | some price =>
      if price < 0 then (.validationError "قیمت نامعتبر است.", s)
      else
        (.success "آیتم منو بروزرسانی شد.",
          { s with
            menu := s.menu.map (fun m =>
              if m.id = item_id then
                { m with name := name, price := price, category := category,
                         isAvailable := is_available }
              else m) })

/-- `POST /menu/<item_id>/delete` (`menu_delete` in `src/app.py`): delete
dependent checkout rows first, then the menu row; no existence check. -/
def menu_delete (item_id : Int) (s : Store) : Outcome × Store :=
  (.success "آیتم منو حذف شد.",
    { s with
      checkout := s.checkout.filter (fun c => !(c.itemId = item_id)),
      menu := s.menu.filter (fun m => !(m.id = item_id)) })

/-- `POST /customers` (`customer_create` in `src/app.py`). -/
def customer_create (f : CustomerForm) (now : String) (s : Store) : Outcome × Store :=
  let first := (pyOr f.first_name "").strip
  let last := (pyOr f.last_name "").strip
  let phone_raw := (pyOr f.phone "").strip
  if first = "" || last = "" then
    (.validationError "نام و نام خانوادگی الزامی است.", s)
  else
    match pyInt phone_raw with
    | none => (.validationError "شماره تماس نامعتبر است.", s)
    | some phone =>
      if phone ≤ 0 then (.validationError "شماره تماس نامعتبر است.", s)
      else
        (.success "مشتری با موفقیت اضافه شد.",
          { s with
            users := s.users ++ [⟨s.nextUserId, first, last, phone, now⟩],
            nextUserId := s.nextUserId + 1 })

/-- `POST /customers/<user_id>/update` (`customer_update` in `src/app.py`). -/
def customer_update (user_id : Int) (f : CustomerForm) (s : Store) : Outcome × Store :=
  let first := (pyOr f.first_name "").strip
  let last := (pyOr f.last_name "").strip
  let phone_raw := (pyOr f.phone "").strip
  if (s.users.find? (fun u => u.id = user_id)).isNone then
    (.notFound, s)
  else if first = "" || last = "" then
    (.validationError "نام و نام خانوادگی الزامی است.", s)
  else
    match pyInt phone_raw with
    | none => (.validationError "شماره تماس نامعتبر است.", s)
    | some phone =>
      if phone ≤ 0 then (.validationError "شماره تماس نامعتبر است.", s)
      else
        (.success "اطلاعات مشتری بروزرسانی شد.",
          { s with
            users := s.users.map (fun u =>
              if u.id = user_id then
                { u with firstName := first, lastName := last, phone := phone }
              else u) })

/-- `POST /customers/<user_id>/delete` (`customer_delete` in `src/app.py`). -/
def customer_delete (user_id : Int) (s : Store) : Outcome × Store :=
  (.success "مشتری حذف شد.",
    { s with
      checkout := s.checkout.filter (fun c => !(c.userId = user_id)),
      users := s.users.filter (fun u => !(u.id = user_id)) })

/-- `POST /orders` (`order_create` in `src/app.py`): parse the three integer
fields, look up the current menu price as a snapshot, then insert; the
insert itself is subject to the storage layer's foreign-key check. -/
def order_create (f : OrderForm) (now : String) (s : Store) : Outcome × Store :=
  let user_id := (pyOr f.user_id "").strip
  let item_id := (pyOr f.item_id "").strip
  let qty_raw := (pyOr f.quantity "1").strip
  let status := (pyOr f.status "در انتظار").strip
  let notes := let t := (pyOr f.notes "").strip; if t = "" then none else some t
  match pyInt user_id, pyInt item_id, pyInt qty_raw with
  | some user_id_i, some item_id_i, some qty =>
    if qty ≤ 0 then (.validationError "اطلاعات سفارش نامعتبر است.", s)
    else
      match s.menu.find? (fun m => m.id = item_id_i) with
      | none => (.validationError "آیتم انتخاب‌شده وجود ندارد.", s)
      | some item =>
        let item_price := item.price
        let total := item_price * qty
        if fkOk s user_id_i item_id_i then
          (.success "سفارش ثبت شد.",
            { s with
              checkout := s.checkout ++
                [⟨s.nextOrderId, user_id_i, item_id_i, qty, item_price, total,
                  status, notes, now⟩],
              nextOrderId := s.nextOrderId + 1 })
        else (.storageError, s)
  | _, _, _ => (.validationError "اطلاعات سفارش نامعتبر است.", s)

/-- `POST /orders/<order_id>/update` (`order_update` in `src/app.py`): the
price snapshot and total are recomputed from the menu's current price. -/
def order_update (order_id : Int) (f : OrderForm) (s : Store) : Outcome × Store :=
  let user_id := (pyOr f.user_id "").strip
  let item_id := (pyOr f.item_id "").strip
  let qty_raw := (pyOr f.quantity "1").strip
  let status := (pyOr f.status "در انتظار").strip
  let notes := let t := (pyOr f.notes "").strip; if t = "" then none else some t
  if (s.checkout.find? (fun c => c.id = order_id)).isNone then
    (.notFound, s)
  else
    match pyInt user_id, pyInt item_id, pyInt qty_raw with
    | some user_id_i, some item_id_i, some qty =>
      if qty ≤ 0 then (.validationError "اطلاعات سفارش نامعتبر است.", s)
      else
        match s.menu.find? (fun m => m.id = item_id_i) with
        | none => (.validationError "آیتم انتخاب‌شده وجود ندارد.", s)
        | some item =>
          let item_price := item.price
          let total := item_price * qty
          if fkOk s user_id_i item_id_i then
            (.success "سفارش بروزرسانی شد.",
              { s with
                checkout := s.checkout.map (fun c =>
                  if c.id = order_id then
                    { c with userId := user_id_i, quantity := qty,
                             itemId := item_id_i, itemPrice := item_price,
                             totalPrice := total, status := status, notes := notes }
                  else c) })
          else (.storageError, s)
    | _, _, _ => (.validationError "اطلاعات سفارش نامعتبر است.", s)

/-- `POST /orders/<order_id>/delete` (`order_delete` in `src/app.py`). -/
def order_delete (order_id : Int) (s : Store) : Outcome × Store :=
  (.success "سفارش حذف شد.",
    { s with checkout := s.checkout.filter (fun c => !(c.id = order_id)) })

/-- Insert one element into a list kept sorted descending by `key`. -/
def insertDescBy (key : α → Int) (x : α) : List α → List α
  | [] => [x]
  | y :: ys => if key y ≤ key x then x :: y :: ys else y :: insertDescBy key x ys

/-- `ORDER BY <key> DESC` over a table's rows. -/
def sortDescBy (key : α → Int) (xs : List α) : List α :=
  xs.foldr (insertDescBy key) []

/-- `SELECT COUNT(*)` over a table's rows. -/
def sqlCount (xs : List α) : Int :=
  xs.foldl (fun n _ => n + 1) 0

/-- `SELECT COALESCE(SUM(f), 0)` over a table's rows. -/
def sqlSum (f : α → Int) (xs : List α) : Int :=
  xs.foldl (fun acc r => acc + f r) 0

/-- One row of the dashboard's joined order listing: a `checkout` row
denormalized with its `user` and `menu` rows. -/
structure OrderView where
  orderId : Int
  quantity : Int
  itemPrice : Int
  totalPrice : Int
  status : String
  notes : Option String
  createdAt : String
  userId : Int
  firstName : String
  lastName : String
  phone : Int
  itemId : Int
  itemName : String
  category : String
deriving DecidableEq, Repr

/-- The four scalar counters of the dashboard. -/
structure Stats where
  customers : Int
  items : Int
  orders : Int
  revenue : Int
deriving DecidableEq, Repr

/-- The menu listing of the dashboard (`SELECT ... FROM menu ORDER BY ID DESC`). -/
def menuListing (s : Store) : List MenuItem :=
  sortDescBy (fun m => m.id) s.menu

/-- The customer listing of the dashboard (`ORDER BY ID DESC`). -/
def customerListing (s : Store) : List Customer :=
  sortDescBy (fun u => u.id) s.users

/-- The order listing of the dashboard: `checkout` inner-joined with `user`
and `menu`, ordered by checkout ID descending. -/
def orderListing (s : Store) : List OrderView :=
  (sortDescBy (fun c => c.id) s.checkout).filterMap (fun c =>
    match s.users.find? (fun u => u.id = c.userId),
          s.menu.find? (fun m => m.id = c.itemId) with
    | some u, some m =>
      some ⟨c.id, c.quantity, c.itemPrice, c.totalPrice, c.status, c.notes,
            c.createdAt, u.id, u.firstName, u.lastName, u.phone,
            m.id, m.name, m.category⟩
    | _, _ => none)

/-- `fetch_dashboard_data` in `src/app.py`: the three listings and the four
scalar counters. -/
def fetch_dashboard_data (s : Store) :
    List MenuItem × List Customer × List OrderView × Stats :=
  (menuListing s, customerListing s, orderListing s,
    ⟨sqlCount s.users, sqlCount s.menu, sqlCount s.checkout,
     sqlSum (fun c => c.totalPrice) s.checkout⟩)

/-! ### Schema migration (`init_db`)

`init_db` manipulates tables at the level of columns, so it is modelled over
an untyped table: a list of column names plus rows of optional `Value`s
(`none` is SQL `NULL`), each row aligned with the column list. -/

/-- An untyped SQLite table: column names and rows of nullable cells. -/
structure DynTable where
  cols : List String
  rows : List (List (Option Value))
deriving DecidableEq, Repr

/-- The database file as `init_db` sees it: each of the three tables either
present or absent. -/
structure Database where
  user : Option DynTable
  menu : Option DynTable
  checkout : Option DynTable
deriving DecidableEq, Repr

/-- `has_column` in `init_db`: `PRAGMA table_info` lists a column of the name. -/
def has_column (t : DynTable) (c : String) : Bool :=
  decide (c ∈ t.cols)

/-- `ALTER TABLE t ADD COLUMN c [DEFAULT d]`: SQLite appends the column and
existing rows read the declared default (`none` when no DEFAULT clause). -/
def addColumn (c : String) (d : Option Value) (t : DynTable) : DynTable :=
  ⟨t.cols ++ [c], t.rows.map (fun r => r ++ [d])⟩

/-- Replace the cell at position `j` of a row. -/
def setAt (j : Nat) (f : Option Value → Option Value) : List (Option Value) → List (Option Value)
  | [] => []
  | x :: xs =>
    match j with
    | 0 => f x :: xs
    | j' + 1 => x :: setAt j' f xs

/-- Position of column `c` in a column list (SQL name resolution). -/
def colIdx (c : String) : List String → Nat
  | [] => 0
  | a :: rest => if a = c then 0 else colIdx c rest + 1

/-- `UPDATE t SET c = COALESCE(c, v)`: backfill `NULL`s of column `c` with
`v`, leaving non-null values alone. -/
def updateCoalesce (c : String) (v : Value) (t : DynTable) : DynTable :=
  ⟨t.cols, t.rows.map (setAt (colIdx c t.cols) (fun x => some (x.getD v)))⟩

/-- One guarded migration step of `init_db`: `ALTER TABLE ... ADD COLUMN`
run only when `has_column` says the column is missing. -/
def addColumnIfMissing (c : String) (d : Option Value) (t : DynTable) : DynTable :=
  if has_column t c then t else addColumn c d t

/-- One guarded backfilling migration step of `init_db`: add the column
without a default, then `UPDATE ... SET c = COALESCE(c, v)` — run only when
the column is missing. -/
def backfillColumnIfMissing (c : String) (v : Value) (t : DynTable) : DynTable :=
  if has_column t c then t else updateCoalesce c v (addColumn c none t)

/-- Modelled from the spec: the repository's `schema.sql` is not under
`src/`; per the spec it creates the base tables when absent (`CREATE TABLE
IF NOT EXISTS`) and never touches an existing table.  The base `user`
columns are those §3 requires besides the migrated ones. -/
def userBaseCols : List String := ["ID", "FirstName", "LastName", "Phone"]

/-- Modelled from the spec: base columns of the `menu` table. -/
def menuBaseCols : List String := ["ID", "Name", "Price"]

/-- Modelled from the spec: base columns of the `checkout` table. -/
def checkoutBaseCols : List String :=
  ["ID", "UserID", "quantity", "ItemID", "ItemPrice", "TotalPrice"]

/-- `CREATE TABLE IF NOT EXISTS`: keep an existing table untouched, create
an empty one with the base columns otherwise. -/
def ensureTable (t : Option DynTable) (base : List String) : DynTable :=
  match t with
  | some t => t
  | none => ⟨base, []⟩

/-- The `user` migration of `init_db`: add `CreatedAt` if missing and
backfill it with `datetime(..)` (the `now` argument) via `COALESCE`. -/
def migrateUser (now : String) (t : DynTable) : DynTable :=
  backfillColumnIfMissing "CreatedAt" (.text now) t

/-- The `menu` migration of `init_db`: add `Category` (default `'عمومی'`)
and `IsAvailable` (default 1) if missing. -/
def migrateMenu (t : DynTable) : DynTable :=
  addColumnIfMissing "IsAvailable" (some (.int 1))
    (addColumnIfMissing "Category" (some (.text "عمومی")) t)

/-- The `checkout` migration of `init_db`: add `CreatedAt` (backfilled),
`Status` (default `'در انتظار'`) and `Notes` if missing. -/
def migrateCheckout (now : String) (t : DynTable) : DynTable :=
  addColumnIfMissing "Notes" none
    (addColumnIfMissing "Status" (some (.text "در انتظار"))
      (backfillColumnIfMissing "CreatedAt" (.text now) t))

/-- `init_db` in `src/app.py`: run `schema.sql` (create base tables when
absent), then the column migrations; `now` is the `datetime('now')` value
used by the backfill updates. -/
def init_db (now : String) (db : Database) : Database :=
  ⟨some (migrateUser now (ensureTable db.user userBaseCols)),
   some (migrateMenu (ensureTable db.menu menuBaseCols)),
   some (migrateCheckout now (ensureTable db.checkout checkoutBaseCols))⟩

/-- Every row of the table has one cell per column (the SQLite invariant). -/
def wfTable (t : DynTable) : Bool :=
  t.rows.all (fun r => r.length == t.cols.length)

/-- Additive migration relation between two table states: the columns were
only extended on the right, no row was added or removed, and every
pre-existing row is unchanged on the pre-existing columns (in particular no
non-null cell of a pre-existing column was altered). -/
def preservedBy (t t' : DynTable) : Prop :=
  (∃ newCols, t'.cols = t.cols ++ newCols) ∧
  t'.rows.length = t.rows.length ∧
  ∀ i, (t'.rows.getD i []).take t.cols.length = (t.rows.getD i []).take t.cols.length

/-! ### Concrete sample data used by witnesses -/

/-- A sample menu row. -/
def sampleItem : MenuItem := ⟨1, "Tea", 15000, "عمومی", 1⟩

/-- A sample customer row. -/
def sampleCustomer : Customer := ⟨1, "Ali", "Rezaei", 9121234567, "2024-01-01 10:00:00"⟩

/-- A sample order row (price snapshot 15000, total 45000). -/
def sampleOrder : Order := ⟨1, 1, 1, 3, 15000, 45000, "در انتظار", none, "2024-01-01 10:05:00"⟩

/-- A sample store holding one row per table. -/
def sampleStore : Store := ⟨[sampleItem], [sampleCustomer], [sampleOrder], 2, 2, 2⟩

/-- A store holding a menu item but no customers: the shape on which the
order handlers reach the storage layer's foreign-key rejection. -/
def menuOnlyStore : Store := ⟨[sampleItem], [], [], 2, 1, 1⟩

/-- An order form referencing customer 1 and item 1 with quantity 2. -/
def orderForm21 : OrderForm := ⟨some "1", some "1", some "2", none, none⟩

/-- A sample `user` table for the migration witnesses. -/
def wUserTable : DynTable :=
  ⟨["ID", "FirstName", "LastName", "Phone"],
   [[some (.int 1), some (.text "Ali"), some (.text "Rezaei"), some (.int 9121234567)]]⟩

/-- A sample `menu` table for the migration witnesses. -/
def wMenuTable : DynTable :=
  ⟨["ID", "Name", "Price"], [[some (.int 1), some (.text "Tea"), some (.int 15000)]]⟩

/-- A sample `checkout` table for the migration witnesses. -/
def wCheckoutTable : DynTable :=
  ⟨["ID", "UserID", "quantity", "ItemID", "ItemPrice", "TotalPrice"],
   [[some (.int 1), some (.int 1), some (.int 3), some (.int 1),
     some (.int 15000), some (.int 45000)]]⟩

/-- A sample database file before a migration run. -/
def wDatabase : Database := ⟨some wUserTable, some wMenuTable, some wCheckoutTable⟩

/-- A menu form whose name is all whitespace (a required-field violation). -/
def emptyNameForm : MenuForm := ⟨some "   ", none, some "25000", none⟩

/-- A menu form whose price does not survive validation. -/
def negPriceForm : MenuForm := ⟨some "Tea", none, some "-5", none⟩

/-- A menu form that omits the `is_available` checkbox. -/
def omittedAvailForm : MenuForm := ⟨some "Tea", none, some "15000", none⟩

/-- A menu form that changes the sample item's price. -/
def priceChangeForm : MenuForm := ⟨some "Tea", none, some "99999", none⟩

/-- A customer form missing the first name. -/
def emptyFirstForm : CustomerForm := ⟨none, some "Rezaei", some "912"⟩

/-- A customer form with an out-of-range phone. -/
def badPhoneForm : CustomerForm := ⟨some "Ali", some "Rezaei", some "0"⟩

/-- An order form with an out-of-range quantity. -/
def badQtyForm : OrderForm := ⟨some "1", some "1", some "0", none, none⟩

/-- An order form referencing customer 1 and item 1 with quantity 5. -/
def qtyFiveForm : OrderForm := ⟨some "1", some "1", some "5", none, none⟩

/-- The sample store after the menu item's price was edited to 20000 while
the existing order still carries the 15000 snapshot. -/
def changedStore : Store :=
  ⟨[⟨1, "Tea", 20000, "عمومی", 1⟩], [sampleCustomer], [sampleOrder], 2, 2, 2⟩

/-! ## Helper lemmas -/

theorem foldl_count (xs : List α) :
    ∀ acc : Int, xs.foldl (fun n _ => n + 1) acc = acc + xs.length := by
  induction xs with
  | nil => intro acc; simp
  | cons x xs ih => intro acc; simp [ih]; omega

theorem sqlCount_eq (xs : List α) : sqlCount xs = (xs.length : Int) := by
  simpa using foldl_count xs 0

theorem foldl_sum (f : α → Int) (xs : List α) :
    ∀ acc : Int, xs.foldl (fun a r => a + f r) acc = acc + (xs.map f).sum := by
  induction xs with
  | nil => intro acc; simp
  | cons x xs ih => intro acc; simp [ih]; ring

theorem sqlSum_eq (f : α → Int) (xs : List α) : sqlSum f xs = (xs.map f).sum := by
  simpa using foldl_sum f xs 0

theorem isSuccess_false_of_isValidation {o : Outcome} (h : o.isValidation = true) :
    o.isSuccess = false := by
  cases o <;> simp_all [Outcome.isValidation, Outcome.isSuccess]

theorem menu_create_fail_eq (f : MenuForm) (s : Store) :
    (menu_create f s).1.isSuccess = false → (menu_create f s).2 = s := by
  unfold menu_create
  dsimp only
  repeat' split
  all_goals simp [Outcome.isSuccess]

theorem menu_update_fail_eq (i : Int) (f : MenuForm) (s : Store) :
    (menu_update i f s).1.isSuccess = false → (menu_update i f s).2 = s := by
  unfold menu_update
  dsimp only
  repeat' split
  all_goals simp [Outcome.isSuccess]

theorem customer_create_fail_eq (f : CustomerForm) (now : String) (s : Store) :
    (customer_create f now s).1.isSuccess = false → (customer_create f now s).2 = s := by
  unfold customer_create
  dsimp only
  repeat' split
  all_goals simp [Outcome.isSuccess]

theorem customer_update_fail_eq (i : Int) (f : CustomerForm) (s : Store) :
    (customer_update i f s).1.isSuccess = false → (customer_update i f s).2 = s := by
  unfold customer_update
  dsimp only
  repeat' split
  all_goals simp [Outcome.isSuccess]

theorem order_create_fail_eq (f : OrderForm) (now : String) (s : Store) :
    (order_create f now s).1.isSuccess = false → (order_create f now s).2 = s := by
  unfold order_create
  dsimp only
  repeat' split
  all_goals simp [Outcome.isSuccess]

theorem order_update_fail_eq (i : Int) (f : OrderForm) (s : Store) :
    (order_update i f s).1.isSuccess = false → (order_update i f s).2 = s := by
  unfold order_update
  dsimp only
  repeat' split
  all_goals simp [Outcome.isSuccess]

/-! ## Claims -/

/-- C4: deleting a MenuItem (resp. Customer) removes exactly the orders whose
foreign key references it, removes the entity row itself, and leaves no
order referencing the deleted identity. -/
theorem C4_cascade_delete (i : Int) (s : Store) :
    (menu_delete i s).2.checkout = s.checkout.filter (fun c => !(c.itemId = i)) ∧
    (menu_delete i s).2.menu = s.menu.filter (fun m => !(m.id = i)) ∧
    (menu_delete i s).2.users = s.users ∧
    (menu_delete i s).2.checkout.all (fun c => !(c.itemId = i)) = true ∧
    (menu_delete i s).2.menu.all (fun m => !(m.id = i)) = true ∧
    (customer_delete i s).2.checkout = s.checkout.filter (fun c => !(c.userId = i)) ∧
    (customer_delete i s).2.users = s.users.filter (fun u => !(u.id = i)) ∧
    (customer_delete i s).2.menu = s.menu ∧
    (customer_delete i s).2.checkout.all (fun c => !(c.userId = i)) = true ∧
    (customer_delete i s).2.users.all (fun u => !(u.id = i)) = true := by
  refine ⟨rfl, rfl, rfl, ?_, ?_, rfl, rfl, rfl, ?_, ?_⟩ <;>
    · simp only [menu_delete, customer_delete, List.all_eq_true]
      intro x hx
      exact (List.mem_filter.1 hx).2

/-- C9: the dashboard's four counters are the row counts of the three tables
and the sum of the stored order totals, the latter 0 when no orders exist. -/
theorem C9_dashboard_counters (s : Store) :
    ((fetch_dashboard_data s).2.2.2).customers = (s.users.length : Int) ∧
    ((fetch_dashboard_data s).2.2.2).items = (s.menu.length : Int) ∧
    ((fetch_dashboard_data s).2.2.2).orders = (s.checkout.length : Int) ∧
    ((fetch_dashboard_data s).2.2.2).revenue = (s.checkout.map (fun c => c.totalPrice)).sum ∧
    (s.checkout = [] → ((fetch_dashboard_data s).2.2.2).revenue = 0) := by
  refine ⟨sqlCount_eq _, sqlCount_eq _, sqlCount_eq _, sqlSum_eq _ _, ?_⟩
  intro h
  simp [fetch_dashboard_data, h, sqlSum]

/-- C9 witness: on the one-row sample store the counters are 1, 1, 1 and
45000, and on the empty store the revenue is 0. -/
theorem C9_dashboard_counters_witness :
    ((fetch_dashboard_data sampleStore).2.2.2).customers = (sampleStore.users.length : Int) ∧
    ((fetch_dashboard_data sampleStore).2.2.2).items = (sampleStore.menu.length : Int) ∧
    ((fetch_dashboard_data sampleStore).2.2.2).orders = (sampleStore.checkout.length : Int) ∧
    ((fetch_dashboard_data sampleStore).2.2.2).revenue
      = (sampleStore.checkout.map (fun c => c.totalPrice)).sum ∧
    ((fetch_dashboard_data emptyStore).2.2.2).revenue = 0 := by
  refine ⟨(C9_dashboard_counters sampleStore).1, (C9_dashboard_counters sampleStore).2.1,
    (C9_dashboard_counters sampleStore).2.2.1, (C9_dashboard_counters sampleStore).2.2.2.1,
    (C9_dashboard_counters emptyStore).2.2.2.2 rfl⟩

/-- C3: whenever one of the six create/update handlers rejects its input as
a validation failure, the store it returns is exactly the store it was
given — no row inserted, updated or deleted. -/
theorem C3_validation_leaves_store_unchanged (fm : MenuForm) (fc : CustomerForm)
    (fo : OrderForm) (i : Int) (now : String) (s : Store) :
    ((menu_create fm s).1.isValidation = true → (menu_create fm s).2 = s) ∧
    ((menu_update i fm s).1.isValidation = true → (menu_update i fm s).2 = s) ∧
    ((customer_create fc now s).1.isValidation = true → (customer_create fc now s).2 = s) ∧
    ((customer_update i fc s).1.isValidation = true → (customer_update i fc s).2 = s) ∧
    ((order_create fo now s).1.isValidation = true → (order_create fo now s).2 = s) ∧
    ((order_update i fo s).1.isValidation = true → (order_update i fo s).2 = s) :=
  ⟨fun h => menu_create_fail_eq fm s (isSuccess_false_of_isValidation h),
   fun h => menu_update_fail_eq i fm s (isSuccess_false_of_isValidation h),
   fun h => customer_create_fail_eq fc now s (isSuccess_false_of_isValidation h),
   fun h => customer_update_fail_eq i fc s (isSuccess_false_of_isValidation h),
   fun h => order_create_fail_eq fo now s (isSuccess_false_of_isValidation h),
   fun h => order_update_fail_eq i fo s (isSuccess_false_of_isValidation h)⟩

/-- C3 witness: six concrete invalid requests against the sample store are
flagged as validation failures and leave it untouched. -/
theorem C3_validation_leaves_store_unchanged_witness :
    ((menu_create emptyNameForm sampleStore).1.isValidation = true ∧
      (menu_create emptyNameForm sampleStore).2 = sampleStore) ∧
    ((menu_update 1 emptyNameForm sampleStore).1.isValidation = true ∧
      (menu_update 1 emptyNameForm sampleStore).2 = sampleStore) ∧
    ((customer_create emptyFirstForm "t" sampleStore).1.isValidation = true ∧
      (customer_create emptyFirstForm "t" sampleStore).2 = sampleStore) ∧
    ((customer_update 1 badPhoneForm sampleStore).1.isValidation = true ∧
      (customer_update 1 badPhoneForm sampleStore).2 = sampleStore) ∧
    ((order_create badQtyForm "t" sampleStore).1.isValidation = true ∧
      (order_create badQtyForm "t" sampleStore).2 = sampleStore) ∧
    ((order_update 1 badQtyForm sampleStore).1.isValidation = true ∧
      (order_update 1 badQtyForm sampleStore).2 = sampleStore) :=
  ⟨⟨by decide,
    (C3_validation_leaves_store_unchanged emptyNameForm emptyFirstForm badQtyForm 1 "t"
      sampleStore).1 (by decide)⟩,
   ⟨by decide,
    (C3_validation_leaves_store_unchanged emptyNameForm emptyFirstForm badQtyForm 1 "t"
      sampleStore).2.1 (by decide)⟩,
   ⟨by decide,
    (C3_validation_leaves_store_unchanged emptyNameForm emptyFirstForm badQtyForm 1 "t"
      sampleStore).2.2.1 (by decide)⟩,
   ⟨by decide,
    (C3_validation_leaves_store_unchanged emptyNameForm badPhoneForm badQtyForm 1 "t"
      sampleStore).2.2.2.1 (by decide)⟩,
   ⟨by decide,
    (C3_validation_leaves_store_unchanged emptyNameForm emptyFirstForm badQtyForm 1 "t"
      sampleStore).2.2.2.2.1 (by decide)⟩,
   ⟨by decide,
    (C3_validation_leaves_store_unchanged emptyNameForm emptyFirstForm badQtyForm 1 "t"
      sampleStore).2.2.2.2.2 (by decide)⟩⟩

theorem menu_update_checkout (j : Int) (g : MenuForm) (s : Store) :
    (menu_update j g s).2.checkout = s.checkout := by
  unfold menu_update
  dsimp only
  repeat' split
  all_goals rfl

/-- C2: an order created against a menu item of price `P` with quantity
`Q > 0` stores `ItemPrice = P` and `TotalPrice = P * Q`, and a later
`menu_update` (including a price change) leaves the stored order rows,
snapshot included, unchanged. -/
theorem C2_price_snapshot (f : OrderForm) (g : MenuForm) (now : String) (s : Store)
    (uid iid q j : Int) (m : MenuItem)
    (hu : pyInt ((pyOr f.user_id "").strip) = some uid)
    (hi : pyInt ((pyOr f.item_id "").strip) = some iid)
    (hq : pyInt ((pyOr f.quantity "1").strip) = some q)
    (hqpos : 0 < q)
    (hm : s.menu.find? (fun x => x.id = iid) = some m)
    (husr : s.users.any (fun u => u.id = uid) = true) :
    (order_create f now s).1 = Outcome.success "سفارش ثبت شد." ∧
    (order_create f now s).2.checkout =
      s.checkout ++ [⟨s.nextOrderId, uid, iid, q, m.price, m.price * q,
        (pyOr f.status "در انتظار").strip,
        (if (pyOr f.notes "").strip = "" then none else some ((pyOr f.notes "").strip)), now⟩] ∧
    (menu_update j g (order_create f now s).2).2.checkout =
      s.checkout ++ [⟨s.nextOrderId, uid, iid, q, m.price, m.price * q,
        (pyOr f.status "در انتظار").strip,
        (if (pyOr f.notes "").strip = "" then none else some ((pyOr f.notes "").strip)), now⟩] := by
  have hq0 : ¬(q ≤ 0) := by omega
  have hpm := List.find?_some hm
  have hfk : fkOk s uid iid = true := by
    unfold fkOk
    rw [husr]
    simp only [Bool.true_and, List.any_eq_true]
    exact ⟨m, List.mem_of_find?_eq_some hm, by simpa using hpm⟩
  have hmain : order_create f now s =
      (Outcome.success "سفارش ثبت شد.",
        { s with
          checkout := s.checkout ++ [⟨s.nextOrderId, uid, iid, q, m.price, m.price * q,
            (pyOr f.status "در انتظار").strip,
            (if (pyOr f.notes "").strip = "" then none else some ((pyOr f.notes "").strip)),
            now⟩],
          nextOrderId := s.nextOrderId + 1 }) := by
    unfold order_create
    dsimp only
    simp only [hu, hi, hq, hm, if_neg hq0, if_pos hfk]
  refine ⟨by rw [hmain], by rw [hmain], ?_⟩
  rw [menu_update_checkout, hmain]

/-- C2 witness: order of 2 Tea at price 15000 stores snapshot 15000 and
total 30000; updating the item's price to 99999 afterwards leaves them. -/
theorem C2_price_snapshot_witness :
    (order_create orderForm21 "t1" sampleStore).1 = Outcome.success "سفارش ثبت شد." ∧
    (order_create orderForm21 "t1" sampleStore).2.checkout =
      sampleStore.checkout ++ [⟨sampleStore.nextOrderId, 1, 1, 2, sampleItem.price,
        sampleItem.price * 2, (pyOr orderForm21.status "در انتظار").strip,
        (if (pyOr orderForm21.notes "").strip = "" then none
         else some ((pyOr orderForm21.notes "").strip)), "t1"⟩] ∧
    (menu_update 1 priceChangeForm (order_create orderForm21 "t1" sampleStore).2).2.checkout =
      sampleStore.checkout ++ [⟨sampleStore.nextOrderId, 1, 1, 2, sampleItem.price,
        sampleItem.price * 2, (pyOr orderForm21.status "در انتظار").strip,
        (if (pyOr orderForm21.notes "").strip = "" then none
         else some ((pyOr orderForm21.notes "").strip)), "t1"⟩] :=
  C2_price_snapshot orderForm21 priceChangeForm "t1" sampleStore 1 1 2 1 sampleItem
    (by decide) (by decide) (by decide) (by decide) (by decide) (by decide)

theorem find?_map_ite (oid : Int) (upd : Order → Order)
    (hid : ∀ c, (upd c).id = c.id) :
    ∀ (l : List Order) (c0 : Order),
      l.find? (fun c => c.id = oid) = some c0 →
      (l.map (fun c => if c.id = oid then upd c else c)).find? (fun c => c.id = oid)
        = some (upd c0) := by
  intro l
  induction l with
  | nil => intro c0 h; simp at h
  | cons a l ih =>
    intro c0 h
    by_cases ha : a.id = oid
    · rw [List.find?_cons_of_pos _ (by simpa using ha)] at h
      cases h
      simp only [List.map_cons, if_pos ha]
      exact List.find?_cons_of_pos _ (by simp [hid, ha])
    · rw [List.find?_cons_of_neg _ (by simpa using ha)] at h
      simp only [List.map_cons, if_neg ha]
      rw [List.find?_cons_of_neg _ (by simpa using ha)]
      exact ih c0 h

/-- C10: a successful order update always overwrites the stored snapshot:
the row's `ItemPrice` becomes the referenced menu item's current price and
`TotalPrice` that price times the submitted quantity, whatever the previous
snapshot was. -/
theorem C10_update_overwrites_snapshot (f : OrderForm) (s : Store)
    (oid uid iid q : Int) (c0 : Order) (m : MenuItem)
    (hord : s.checkout.find? (fun c => c.id = oid) = some c0)
    (hu : pyInt ((pyOr f.user_id "").strip) = some uid)
    (hi : pyInt ((pyOr f.item_id "").strip) = some iid)
    (hq : pyInt ((pyOr f.quantity "1").strip) = some q)
    (hqpos : 0 < q)
    (hm : s.menu.find? (fun x => x.id = iid) = some m)
    (husr : s.users.any (fun u => u.id = uid) = true) :
    (order_update oid f s).1 = Outcome.success "سفارش بروزرسانی شد." ∧
    (order_update oid f s).2.checkout.find? (fun c => c.id = oid) =
      some { c0 with
             userId := uid, itemId := iid, quantity := q,
             itemPrice := m.price, totalPrice := m.price * q,
             status := (pyOr f.status "در انتظار").strip,
             notes := if (pyOr f.notes "").strip = "" then none
                      else some ((pyOr f.notes "").strip) } := by
  have hq0 : ¬(q ≤ 0) := by omega
  have hpm := List.find?_some hm
  have hfk : fkOk s uid iid = true := by
    unfold fkOk
    rw [husr]
    simp only [Bool.true_and, List.any_eq_true]
    exact ⟨m, List.mem_of_find?_eq_some hm, by simpa using hpm⟩
  have hnn : (s.checkout.find? (fun c => c.id = oid)).isNone = false := by
    rw [hord]; rfl
  have hmain : order_update oid f s =
      (Outcome.success "سفارش بروزرسانی شد.",
        { s with
          checkout := s.checkout.map (fun c =>
            if c.id = oid then
              { c with
                userId := uid, itemId := iid, quantity := q,
                itemPrice := m.price, totalPrice := m.price * q,
                status := (pyOr f.status "در انتظار").strip,
                notes := if (pyOr f.notes "").strip = "" then none
                         else some ((pyOr f.notes "").strip) }
            else c) }) := by
    unfold order_update
    dsimp only
    simp only [hnn, Bool.false_eq_true, if_false, hu, hi, hq, hm, if_neg hq0, if_pos hfk]
  refine ⟨by rw [hmain], ?_⟩
  rw [hmain]
  exact find?_map_ite oid
    (fun c => { c with
                userId := uid, itemId := iid, quantity := q,
                itemPrice := m.price, totalPrice := m.price * q,
                status := (pyOr f.status "در انتظار").strip,
                notes := if (pyOr f.notes "").strip = "" then none
                         else some ((pyOr f.notes "").strip) })
    (fun c => rfl) s.checkout c0 hord

theorem mem_insertDescBy (key : α → Int) (x y : α) (l : List α) :
    x ∈ insertDescBy key y l ↔ x = y ∨ x ∈ l := by
  induction l with
  | nil => simp [insertDescBy]
  | cons a l ih =>
    unfold insertDescBy
    split
    · simp [List.mem_cons]
    · simp only [List.mem_cons, ih]
      tauto

theorem length_insertDescBy (key : α → Int) (y : α) (l : List α) :
    (insertDescBy key y l).length = l.length + 1 := by
  induction l with
  | nil => rfl
  | cons a l ih =>
    unfold insertDescBy
    split
    · simp
    · simp [ih]

theorem mem_sortDescBy (key : α → Int) (x : α) (l : List α) :
    x ∈ sortDescBy key l ↔ x ∈ l := by
  induction l with
  | nil => simp [sortDescBy]
  | cons a l ih =>
    show x ∈ insertDescBy key a (sortDescBy key l) ↔ _
    rw [mem_insertDescBy]
    simp [List.mem_cons, ih]

theorem length_sortDescBy (key : α → Int) (l : List α) :
    (sortDescBy key l).length = l.length := by
  induction l with
  | nil => rfl
  | cons a l ih =>
    show (insertDescBy key a (sortDescBy key l)).length = _
    rw [length_insertDescBy, ih]
    rfl

theorem menu_create_badprice (f : MenuForm) (s : Store)
    (hbad : pyInt ((pyOr f.price "0").strip) = none ∨
            ∃ n, pyInt ((pyOr f.price "0").strip) = some n ∧ n < 0) :
    (menu_create f s).1.isValidation = true ∧ (menu_create f s).2 = s := by
  unfold menu_create
  dsimp only
  rcases hbad with h | ⟨n, hn, hneg⟩
  · split
    · exact ⟨rfl, rfl⟩
    · simp [h, Outcome.isValidation]
  · split
    · exact ⟨rfl, rfl⟩
    · simp [hn, hneg, Outcome.isValidation]

theorem menu_update_badprice (j : Int) (f : MenuForm) (s : Store)
    (hbad : pyInt ((pyOr f.price "0").strip) = none ∨
            ∃ n, pyInt ((pyOr f.price "0").strip) = some n ∧ n < 0) :
    ((s.menu.find? (fun m => m.id = j)).isNone = false →
      (menu_update j f s).1.isValidation = true) ∧
    (menu_update j f s).1.isSuccess = false ∧ (menu_update j f s).2 = s := by
  unfold menu_update
  dsimp only
  by_cases hj : (s.menu.find? (fun m => m.id = j)).isNone = true
  · rw [if_pos hj]
    exact ⟨fun h => by rw [h] at hj; exact Bool.noConfusion hj, rfl, rfl⟩
  · rw [if_neg hj]
    rcases hbad with h | ⟨n, hn, hneg⟩
    · split
      · exact ⟨fun _ => rfl, rfl, rfl⟩
      · simp [h, Outcome.isValidation, Outcome.isSuccess]
    · split
      · exact ⟨fun _ => rfl, rfl, rfl⟩
      · simp [hn, hneg, Outcome.isValidation, Outcome.isSuccess]

/-- C6: a menu create or update whose price field does not parse as an
integer or parses negative is rejected as a validation failure (a 404 takes
precedence only when the update's target id has no row, see C7), and the
menu listing afterwards equals the listing before. -/
theorem C6_invalid_price_rejected (f : MenuForm) (j : Int) (s : Store)
    (hbad : pyInt ((pyOr f.price "0").strip) = none ∨
            ∃ n, pyInt ((pyOr f.price "0").strip) = some n ∧ n < 0) :
    ((menu_create f s).1.isValidation = true ∧
      menuListing (menu_create f s).2 = menuListing s) ∧
    ((s.menu.find? (fun m => m.id = j)).isNone = false →
      (menu_update j f s).1.isValidation = true) ∧
    (menu_update j f s).1.isSuccess = false ∧
    menuListing (menu_update j f s).2 = menuListing s := by
  obtain ⟨h1, h2⟩ := menu_create_badprice f s hbad
  obtain ⟨h3, h4, h5⟩ := menu_update_badprice j f s hbad
  exact ⟨⟨h1, by rw [h2]⟩, h3, h4, by rw [h5]⟩

/-- C6 witness: price `"-5"` against the sample store is a validation
failure on create, and on update of the existing item 1, with the listing
unchanged both times. -/
theorem C6_invalid_price_rejected_witness :
    ((menu_create negPriceForm sampleStore).1.isValidation = true ∧
      menuListing (menu_create negPriceForm sampleStore).2 = menuListing sampleStore) ∧
    (menu_update 1 negPriceForm sampleStore).1.isValidation = true ∧
    (menu_update 1 negPriceForm sampleStore).1.isSuccess = false ∧
    menuListing (menu_update 1 negPriceForm sampleStore).2 = menuListing sampleStore := by
  obtain ⟨ha, hb, hc, hd⟩ := C6_invalid_price_rejected negPriceForm 1 sampleStore
    (Or.inr ⟨-5, by decide, by decide⟩)
  exact ⟨ha, hb (by decide), hc, hd⟩

/-- C8 counterexample: creating `Tea` at price 15000 with the
`is_available` checkbox omitted stores `IsAvailable = 0` (false), not the
claimed default of true. -/
theorem C8_counterexample :
    (menu_create omittedAvailForm emptyStore).2.menu.map (fun m => m.isAvailable) = [0] ∧
    ¬((menu_create omittedAvailForm emptyStore).2.menu.map (fun m => m.isAvailable) = [1]) := by
  decide

/-- C8 (amended): a menu create with non-empty name and non-negative integer
price appends exactly one row carrying the submitted name and price; an
omitted Category defaults to the generic label, while IsAvailable is 1 only
when the checkbox was submitted as `"on"` and 0 otherwise — in particular 0,
not the spec's claimed true, when the field is omitted. -/
theorem C8_menu_create_row (f : MenuForm) (s : Store) (p : Int)
    (hname : ¬((pyOr f.name "").strip = ""))
    (hp : pyInt ((pyOr f.price "0").strip) = some p)
    (hpnn : 0 ≤ p) :
    menu_create f s =
      (Outcome.success "آیتم منو با موفقیت اضافه شد.",
        { s with
          menu := s.menu ++ [⟨s.nextMenuId, (pyOr f.name "").strip, p,
            (pyOr f.category "عمومی").strip,
            if f.is_available = some "on" then 1 else 0⟩],
          nextMenuId := s.nextMenuId + 1 }) ∧
    (⟨s.nextMenuId, (pyOr f.name "").strip, p, (pyOr f.category "عمومی").strip,
      if f.is_available = some "on" then 1 else 0⟩ : MenuItem)
        ∈ menuListing (menu_create f s).2 ∧
    (menuListing (menu_create f s).2).length = (menuListing s).length + 1 := by
  have hmain : menu_create f s =
      (Outcome.success "آیتم منو با موفقیت اضافه شد.",
        { s with
          menu := s.menu ++ [⟨s.nextMenuId, (pyOr f.name "").strip, p,
            (pyOr f.category "عمومی").strip,
            if f.is_available = some "on" then 1 else 0⟩],
          nextMenuId := s.nextMenuId + 1 }) := by
    unfold menu_create
    dsimp only
    simp only [if_neg hname, hp, if_neg (not_lt.2 hpnn)]
  refine ⟨hmain, ?_, ?_⟩
  · rw [hmain]
    unfold menuListing
    rw [mem_sortDescBy]
    simp
  · rw [hmain]
    unfold menuListing
    rw [length_sortDescBy, length_sortDescBy]
    simp

/-- C8 witness: the omitted-checkbox form appends its row with
`IsAvailable = 0` to the sample store's listing. -/
theorem C8_menu_create_row_witness :
    menu_create omittedAvailForm sampleStore =
      (Outcome.success "آیتم منو با موفقیت اضافه شد.",
        { sampleStore with
          menu := sampleStore.menu ++ [⟨sampleStore.nextMenuId,
            (pyOr omittedAvailForm.name "").strip, 15000,
            (pyOr omittedAvailForm.category "عمومی").strip,
            if omittedAvailForm.is_available = some "on" then 1 else 0⟩],
          nextMenuId := sampleStore.nextMenuId + 1 }) ∧
    (⟨sampleStore.nextMenuId, (pyOr omittedAvailForm.name "").strip, 15000,
      (pyOr omittedAvailForm.category "عمومی").strip,
      if omittedAvailForm.is_available = some "on" then 1 else 0⟩ : MenuItem)
        ∈ menuListing (menu_create omittedAvailForm sampleStore).2 ∧
    (menuListing (menu_create omittedAvailForm sampleStore).2).length
      = (menuListing sampleStore).length + 1 :=
  C8_menu_create_row omittedAvailForm sampleStore 15000 (by decide) (by decide) (by decide)

/-- C7 counterexample: deleting order id 999999 from the empty store reports
success, not the claimed not-found outcome. -/
theorem C7_counterexample :
    (order_delete 999999 emptyStore).1 = Outcome.success "سفارش حذف شد." ∧
    ¬((order_delete 999999 emptyStore).1 = Outcome.notFound) ∧
    (order_delete 999999 emptyStore).2 = emptyStore := by
  decide

/-- C7 (amended): an update request against an absent identity yields the
not-found outcome with the store unchanged, for all three entities; a delete
request against an absent identity performs no existence check and reports
success, leaving the store unchanged (given no order row references the
absent identity, which foreign-key integrity guarantees). -/
theorem C7_unknown_identity (i : Int) (fm : MenuForm) (fc : CustomerForm)
    (fo : OrderForm) (s : Store) :
    (s.menu.find? (fun m => m.id = i) = none →
      menu_update i fm s = (Outcome.notFound, s)) ∧
    (s.users.find? (fun u => u.id = i) = none →
      customer_update i fc s = (Outcome.notFound, s)) ∧
    (s.checkout.find? (fun c => c.id = i) = none →
      order_update i fo s = (Outcome.notFound, s)) ∧
    (s.menu.find? (fun m => m.id = i) = none →
      s.checkout.all (fun c => !(c.itemId = i)) = true →
      menu_delete i s = (Outcome.success "آیتم منو حذف شد.", s)) ∧
    (s.users.find? (fun u => u.id = i) = none →
      s.checkout.all (fun c => !(c.userId = i)) = true →
      customer_delete i s = (Outcome.success "مشتری حذف شد.", s)) ∧
    (s.checkout.find? (fun c => c.id = i) = none →
      order_delete i s = (Outcome.success "سفارش حذف شد.", s)) := by
  refine ⟨?_, ?_, ?_, ?_, ?_, ?_⟩
  · intro h
    unfold menu_update
    dsimp only
    rw [h]
    rfl
  · intro h
    unfold customer_update
    dsimp only
    rw [h]
    rfl
  · intro h
    unfold order_update
    dsimp only
    rw [h]
    rfl
  · intro h1 h2
    unfold menu_delete
    have hc : s.checkout.filter (fun c => !(c.itemId = i)) = s.checkout :=
      List.filter_eq_self.2 (List.all_eq_true.1 h2)
    have hm : s.menu.filter (fun m => !(m.id = i)) = s.menu :=
      List.filter_eq_self.2 (by
        intro x hx
        have hne := List.find?_eq_none.1 h1 x hx
        simpa using hne)
    rw [hc, hm]
  · intro h1 h2
    unfold customer_delete
    have hc : s.checkout.filter (fun c => !(c.userId = i)) = s.checkout :=
      List.filter_eq_self.2 (List.all_eq_true.1 h2)
    have hu : s.users.filter (fun u => !(u.id = i)) = s.users :=
      List.filter_eq_self.2 (by
        intro x hx
        have hne := List.find?_eq_none.1 h1 x hx
        simpa using hne)
    rw [hc, hu]
  · intro h
    unfold order_delete
    have hc : s.checkout.filter (fun c => !(c.id = i)) = s.checkout :=
      List.filter_eq_self.2 (by
        intro x hx
        have hne := List.find?_eq_none.1 h x hx
        simpa using hne)
    rw [hc]

/-- C7 witness: identity 999999 exists nowhere in the sample store; updates
yield not-found and deletes report success, all leaving the store as is. -/
theorem C7_unknown_identity_witness :
    menu_update 999999 emptyNameForm sampleStore = (Outcome.notFound, sampleStore) ∧
    customer_update 999999 badPhoneForm sampleStore = (Outcome.notFound, sampleStore) ∧
    order_update 999999 badQtyForm sampleStore = (Outcome.notFound, sampleStore) ∧
    menu_delete 999999 sampleStore = (Outcome.success "آیتم منو حذف شد.", sampleStore) ∧
    customer_delete 999999 sampleStore = (Outcome.success "مشتری حذف شد.", sampleStore) ∧
    order_delete 999999 sampleStore = (Outcome.success "سفارش حذف شد.", sampleStore) := by
  obtain ⟨h1, h2, h3, h4, h5, h6⟩ :=
    C7_unknown_identity 999999 emptyNameForm badPhoneForm badQtyForm sampleStore
  exact ⟨h1 (by decide), h2 (by decide), h3 (by decide), h4 (by decide) (by decide),
    h5 (by decide) (by decide), h6 (by decide)⟩

/-- C1 counterexample: an order create referencing the existing item 1 but
the nonexistent customer 1 is not rejected by the application's validation;
it reaches the storage layer, whose foreign-key check fails the insert
(an uncaught error, HTTP 500), though indeed no row is written. -/
theorem C1_counterexample :
    (order_create orderForm21 "t0" menuOnlyStore).1 = Outcome.storageError ∧
    (order_create orderForm21 "t0" menuOnlyStore).1.isValidation = false ∧
    (order_create orderForm21 "t0" menuOnlyStore).2 = menuOnlyStore := by
  decide

/-- C1 (amended): on order create and update the application validates only
the MenuItem reference (a missing item is a validation failure); a missing
Customer is not validated and surfaces as a storage-layer foreign-key error
instead. In every non-success case no checkout row is written, and a
successful write implies both referenced rows existed. -/
theorem C1_order_reference_checks (f : OrderForm) (now : String) (s : Store)
    (oid uid iid q : Int)
    (hu : pyInt ((pyOr f.user_id "").strip) = some uid)
    (hi : pyInt ((pyOr f.item_id "").strip) = some iid)
    (hq : pyInt ((pyOr f.quantity "1").strip) = some q)
    (hqpos : 0 < q) :
    ((order_create f now s).1.isSuccess = false → (order_create f now s).2 = s) ∧
    ((order_create f now s).1.isSuccess = true → fkOk s uid iid = true) ∧
    (s.menu.find? (fun m => m.id = iid) = none →
      (order_create f now s).1 = Outcome.validationError "آیتم انتخاب‌شده وجود ندارد.") ∧
    (∀ m, s.menu.find? (fun x => x.id = iid) = some m →
      s.users.any (fun u => u.id = uid) = false →
      (order_create f now s).1 = Outcome.storageError) ∧
    ((order_update oid f s).1.isSuccess = false → (order_update oid f s).2 = s) ∧
    ((order_update oid f s).1.isSuccess = true → fkOk s uid iid = true) ∧
    ((s.checkout.find? (fun c => c.id = oid)).isNone = false →
      s.menu.find? (fun m => m.id = iid) = none →
      (order_update oid f s).1 = Outcome.validationError "آیتم انتخاب‌شده وجود ندارد.") ∧
    (∀ m, (s.checkout.find? (fun c => c.id = oid)).isNone = false →
      s.menu.find? (fun x => x.id = iid) = some m →
      s.users.any (fun u => u.id = uid) = false →
      (order_update oid f s).1 = Outcome.storageError) := by
  have hq0 : ¬(q ≤ 0) := by omega
  refine ⟨order_create_fail_eq f now s, ?_, ?_, ?_,
    order_update_fail_eq oid f s, ?_, ?_, ?_⟩
  · unfold order_create
    dsimp only
    simp only [hu, hi, hq, if_neg hq0]
    split
    · intro h
      exact Bool.noConfusion h
    · split
      · intro _
        assumption
      · intro h
        exact Bool.noConfusion h
  · intro hnone
    unfold order_create
    dsimp only
    simp only [hu, hi, hq, if_neg hq0, hnone]
  · intro m hm husr
    have hfk : fkOk s uid iid = false := by
      unfold fkOk
      rw [husr]
      rfl
    unfold order_create
    dsimp only
    simp only [hu, hi, hq, if_neg hq0, hm, hfk, Bool.false_eq_true, if_false]
  · unfold order_update
    dsimp only
    split
    · intro h
      exact Bool.noConfusion h
    · simp only [hu, hi, hq, if_neg hq0]
      split
      · intro h
        exact Bool.noConfusion h
      · split
        · intro _
          assumption
        · intro h
          exact Bool.noConfusion h
  · intro hnn hnone
    unfold order_update
    dsimp only
    rw [hnn]
    simp only [Bool.false_eq_true, if_false, hu, hi, hq, if_neg hq0, hnone]
  · intro m hnn hm husr
    have hfk : fkOk s uid iid = false := by
      unfold fkOk
      rw [husr]
      rfl
    unfold order_update
    dsimp only
    rw [hnn]
    simp only [Bool.false_eq_true, if_false, hu, hi, hq, if_neg hq0, hm, hfk]

/-- C1 witness: with item 1 present and no customers, create and update
requests referencing customer 1 reach the storage error; with the item also
absent the outcome is the item validation message; a successful create on
the full sample store implies both references existed. -/
theorem C1_order_reference_checks_witness :
    ((order_create orderForm21 "t0" menuOnlyStore).1.isSuccess = false →
      (order_create orderForm21 "t0" menuOnlyStore).2 = menuOnlyStore) ∧
    (order_create orderForm21 "t0" menuOnlyStore).1 = Outcome.storageError ∧
    (order_create orderForm21 "t0" emptyStore).1
      = Outcome.validationError "آیتم انتخاب‌شده وجود ندارد." ∧
    ((order_create orderForm21 "t0" sampleStore).1.isSuccess = true →
      fkOk sampleStore 1 1 = true) := by
  refine ⟨(C1_order_reference_checks orderForm21 "t0" menuOnlyStore 1 1 1 2
      (by decide) (by decide) (by decide) (by decide)).1, ?_, ?_, ?_⟩
  · exact (C1_order_reference_checks orderForm21 "t0" menuOnlyStore 1 1 1 2
      (by decide) (by decide) (by decide) (by decide)).2.2.2.1 sampleItem
      (by decide) (by decide)
  · exact (C1_order_reference_checks orderForm21 "t0" emptyStore 1 1 1 2
      (by decide) (by decide) (by decide) (by decide)).2.2.1 (by decide)
  · exact (C1_order_reference_checks orderForm21 "t0" sampleStore 1 1 1 2
      (by decide) (by decide) (by decide) (by decide)).2.1

/-- C10 witness: after the item's price rose to 20000, updating the sample
order to quantity 5 replaces the 15000 snapshot by 20000 and the total by
100000. -/
theorem C10_update_overwrites_snapshot_witness :
    (order_update 1 qtyFiveForm changedStore).1 = Outcome.success "سفارش بروزرسانی شد." ∧
    (order_update 1 qtyFiveForm changedStore).2.checkout.find? (fun c => c.id = 1) =
      some { sampleOrder with
             userId := 1, itemId := 1, quantity := 5,
             itemPrice := (20000 : Int), totalPrice := (20000 : Int) * 5,
             status := (pyOr qtyFiveForm.status "در انتظار").strip,
             notes := if (pyOr qtyFiveForm.notes "").strip = "" then none
                      else some ((pyOr qtyFiveForm.notes "").strip) } :=
  C10_update_overwrites_snapshot qtyFiveForm changedStore 1 1 1 5 sampleOrder
    ⟨1, "Tea", 20000, "عمومی", 1⟩ (by decide) (by decide) (by decide) (by decide)
    (by decide) (by decide) (by decide)

theorem setAt_length (f : Option Value → Option Value) :
    ∀ (j : Nat) (r : List (Option Value)), (setAt j f r).length = r.length := by
  intro j r
  induction r generalizing j with
  | nil => simp [setAt]
  | cons x xs ih =>
    cases j with
    | zero => simp [setAt]
    | succ j' => simp [setAt, ih j']

theorem setAt_take_of_le (f : Option Value → Option Value) :
    ∀ (j n : Nat) (r : List (Option Value)), n ≤ j →
      (setAt j f r).take n = r.take n := by
  intro j n r
  induction r generalizing j n with
  | nil => intro _; simp [setAt]
  | cons x xs ih =>
    intro h
    cases j with
    | zero =>
      have hn : n = 0 := Nat.le_zero.1 h
      subst hn
      simp
    | succ j' =>
      cases n with
      | zero => simp
      | succ n' =>
        simp [setAt, List.take_succ_cons, ih j' n' (by omega)]

theorem colIdx_append_self (c : String) :
    ∀ (l : List String), ¬(c ∈ l) → colIdx c (l ++ [c]) = l.length := by
  intro l
  induction l with
  | nil => intro _; simp [colIdx]
  | cons a l ih =>
    intro h
    have hac : ¬(a = c) := fun e => h (by rw [e]; exact List.mem_cons_self c l)
    show colIdx c (a :: (l ++ [c])) = l.length + 1
    unfold colIdx
    rw [if_neg hac, ih (fun hm => h (List.mem_cons_of_mem a hm))]

theorem wf_len {t : DynTable} (h : wfTable t = true) :
    ∀ r ∈ t.rows, r.length = t.cols.length := by
  intro r hr
  have := List.all_eq_true.1 h r hr
  simpa using this

theorem wf_addColumn (c : String) (d : Option Value) {t : DynTable}
    (h : wfTable t = true) : wfTable (addColumn c d t) = true := by
  apply List.all_eq_true.2
  intro r' hr'
  obtain ⟨r, hr, rfl⟩ := List.mem_map.1 hr'
  simp [addColumn, wf_len h r hr]

theorem wf_updateCoalesce (c : String) (v : Value) {t : DynTable}
    (h : wfTable t = true) : wfTable (updateCoalesce c v t) = true := by
  apply List.all_eq_true.2
  intro r' hr'
  obtain ⟨r, hr, rfl⟩ := List.mem_map.1 hr'
  simp [updateCoalesce, setAt_length, wf_len h r hr]

theorem preservedBy_refl (t : DynTable) : preservedBy t t :=
  ⟨⟨[], by simp⟩, rfl, fun _ => rfl⟩

theorem preservedBy_trans {t u v : DynTable}
    (h1 : preservedBy t u) (h2 : preservedBy u v) : preservedBy t v := by
  obtain ⟨⟨n1, hc1⟩, hl1, hr1⟩ := h1
  obtain ⟨⟨n2, hc2⟩, hl2, hr2⟩ := h2
  have hle : t.cols.length ≤ u.cols.length := by
    rw [hc1]
    simp
  refine ⟨⟨n1 ++ n2, by rw [hc2, hc1, List.append_assoc]⟩, by rw [hl2, hl1], ?_⟩
  intro i
  calc (v.rows.getD i []).take t.cols.length
      = ((v.rows.getD i []).take u.cols.length).take t.cols.length := by
        rw [List.take_take, min_eq_left hle]
    _ = ((u.rows.getD i []).take u.cols.length).take t.cols.length := by rw [hr2 i]
    _ = (u.rows.getD i []).take t.cols.length := by
        rw [List.take_take, min_eq_left hle]
    _ = (t.rows.getD i []).take t.cols.length := hr1 i

theorem getD_map_take (g : List (Option Value) → List (Option Value))
    (rows : List (List (Option Value))) (n : Nat)
    (hg : ∀ r ∈ rows, (g r).take n = r.take n) (i : Nat) :
    ((rows.map g).getD i []).take n = (rows.getD i []).take n := by
  rw [List.getD_eq_getElem?_getD, List.getD_eq_getElem?_getD, List.getElem?_map]
  rcases hr : rows[i]? with _ | r
  · rfl
  · exact hg r (List.getElem?_mem hr)

theorem preservedBy_addColumn (c : String) (d : Option Value) {t : DynTable}
    (h : wfTable t = true) : preservedBy t (addColumn c d t) := by
  refine ⟨⟨[c], rfl⟩, by simp [addColumn], ?_⟩
  intro i
  exact getD_map_take (fun r => r ++ [d]) t.rows t.cols.length
    (fun r hr => List.take_append_of_le_length (le_of_eq (wf_len h r hr).symm)) i

theorem preservedBy_backfillAdd (c : String) (v : Value) {t : DynTable}
    (hnot : has_column t c = false) (h : wfTable t = true) :
    preservedBy t (updateCoalesce c v (addColumn c none t)) := by
  have hmem : ¬(c ∈ t.cols) := by simpa [has_column] using hnot
  have hidx : colIdx c (t.cols ++ [c]) = t.cols.length := colIdx_append_self c t.cols hmem
  refine ⟨⟨[c], rfl⟩, by simp [updateCoalesce, addColumn], ?_⟩
  intro i
  have h1 := getD_map_take (setAt (colIdx c (t.cols ++ [c])) (fun x => some (x.getD v)))
    (t.rows.map (fun r => r ++ [none])) t.cols.length
    (fun r1 _ => setAt_take_of_le _ _ _ r1 (le_of_eq hidx.symm)) i
  have h2 := getD_map_take (fun r => r ++ [(none : Option Value)]) t.rows t.cols.length
    (fun r hr => List.take_append_of_le_length (le_of_eq (wf_len h r hr).symm)) i
  show (((t.rows.map (fun r => r ++ [none])).map
    (setAt (colIdx c (t.cols ++ [c])) (fun x => some (x.getD v)))).getD i []).take
      t.cols.length = (t.rows.getD i []).take t.cols.length
  rw [h1, h2]

theorem aim_preserved (c : String) (d : Option Value) {t : DynTable}
    (h : wfTable t = true) :
    preservedBy t (addColumnIfMissing c d t) ∧
    wfTable (addColumnIfMissing c d t) = true := by
  unfold addColumnIfMissing
  split
  · exact ⟨preservedBy_refl t, h⟩
  · exact ⟨preservedBy_addColumn c d h, wf_addColumn c d h⟩

theorem bim_preserved (c : String) (v : Value) {t : DynTable}
    (h : wfTable t = true) :
    preservedBy t (backfillColumnIfMissing c v t) ∧
    wfTable (backfillColumnIfMissing c v t) = true := by
  unfold backfillColumnIfMissing
  split
  · exact ⟨preservedBy_refl t, h⟩
  · rename_i hcond
    have hnot : has_column t c = false := by
      simpa using hcond
    exact ⟨preservedBy_backfillAdd c v hnot h,
      wf_updateCoalesce c v (wf_addColumn c none h)⟩

theorem has_column_addColumn_self (c : String) (d : Option Value) (t : DynTable) :
    has_column (addColumn c d t) c = true := by
  simp [has_column, addColumn]

theorem has_column_addColumn_mono (c c' : String) (d : Option Value) (t : DynTable)
    (h : has_column t c = true) : has_column (addColumn c' d t) c = true := by
  simp only [has_column, addColumn, decide_eq_true_eq, List.mem_append] at h ⊢
  exact Or.inl h

theorem has_column_aim_self (c : String) (d : Option Value) (t : DynTable) :
    has_column (addColumnIfMissing c d t) c = true := by
  unfold addColumnIfMissing
  split
  · assumption
  · exact has_column_addColumn_self c d t

theorem has_column_aim_mono (c c' : String) (d : Option Value) (t : DynTable)
    (h : has_column t c = true) : has_column (addColumnIfMissing c' d t) c = true := by
  unfold addColumnIfMissing
  split
  · exact h
  · exact has_column_addColumn_mono c c' d t h

theorem has_column_bim_self (c : String) (v : Value) (t : DynTable) :
    has_column (backfillColumnIfMissing c v t) c = true := by
  unfold backfillColumnIfMissing
  split
  · assumption
  · show has_column ⟨(addColumn c none t).cols, _⟩ c = true
    exact has_column_addColumn_self c none t

theorem has_column_bim_mono (c c' : String) (v : Value) (t : DynTable)
    (h : has_column t c = true) : has_column (backfillColumnIfMissing c' v t) c = true := by
  unfold backfillColumnIfMissing
  split
  · exact h
  · show has_column ⟨(addColumn c' none t).cols, _⟩ c = true
    exact has_column_addColumn_mono c c' none t h

theorem aim_of_has (c : String) (d : Option Value) (t : DynTable)
    (h : has_column t c = true) : addColumnIfMissing c d t = t := by
  unfold addColumnIfMissing
  rw [if_pos h]

theorem bim_of_has (c : String) (v : Value) (t : DynTable)
    (h : has_column t c = true) : backfillColumnIfMissing c v t = t := by
  unfold backfillColumnIfMissing
  rw [if_pos h]

theorem migrateUser_idem (now1 now2 : String) (t : DynTable) :
    migrateUser now2 (migrateUser now1 t) = migrateUser now1 t :=
  bim_of_has _ _ _ (has_column_bim_self "CreatedAt" (.text now1) t)

theorem migrateMenu_idem (t : DynTable) :
    migrateMenu (migrateMenu t) = migrateMenu t := by
  unfold migrateMenu
  rw [aim_of_has "Category" _ _
    (has_column_aim_mono "Category" "IsAvailable" _ _
      (has_column_aim_self "Category" _ t)),
    aim_of_has "IsAvailable" _ _ (has_column_aim_self "IsAvailable" _ _)]

theorem migrateCheckout_idem (now1 now2 : String) (t : DynTable) :
    migrateCheckout now2 (migrateCheckout now1 t) = migrateCheckout now1 t := by
  unfold migrateCheckout
  rw [bim_of_has "CreatedAt" _ _
    (has_column_aim_mono "CreatedAt" "Notes" _ _
      (has_column_aim_mono "CreatedAt" "Status" _ _
        (has_column_bim_self "CreatedAt" _ t))),
    aim_of_has "Status" _ _
      (has_column_aim_mono "Status" "Notes" _ _
        (has_column_aim_self "Status" _ _)),
    aim_of_has "Notes" _ _ (has_column_aim_self "Notes" _ _)]

theorem migrateUser_preserved {t : DynTable} (h : wfTable t = true) (now : String) :
    preservedBy t (migrateUser now t) :=
  (bim_preserved "CreatedAt" (.text now) h).1

theorem migrateMenu_preserved {t : DynTable} (h : wfTable t = true) :
    preservedBy t (migrateMenu t) := by
  obtain ⟨p1, w1⟩ := aim_preserved "Category" (some (.text "عمومی")) h
  obtain ⟨p2, _⟩ := aim_preserved "IsAvailable" (some (.int 1)) w1
  exact preservedBy_trans p1 p2

theorem migrateCheckout_preserved {t : DynTable} (h : wfTable t = true) (now : String) :
    preservedBy t (migrateCheckout now t) := by
  obtain ⟨p1, w1⟩ := bim_preserved "CreatedAt" (.text now) h
  obtain ⟨p2, w2⟩ := aim_preserved "Status" (some (.text "در انتظار")) w1
  obtain ⟨p3, _⟩ := aim_preserved "Notes" none w2
  exact preservedBy_trans (preservedBy_trans p1 p2) p3

/-- C5: `init_db` is idempotent — a second run on the already-migrated store
is the identity — and on tables already present a run only appends columns:
it never deletes a table, column or row, and every pre-existing row keeps
all its values (null or not) on the pre-existing columns. -/
theorem C5_init_db_idempotent_additive (now1 now2 : String) (db : Database)
    (t u c : DynTable)
    (ht : db.user = some t) (hm : db.menu = some u) (hc : db.checkout = some c)
    (hwt : wfTable t = true) (hwu : wfTable u = true) (hwc : wfTable c = true) :
    init_db now2 (init_db now1 db) = init_db now1 db ∧
    (init_db now1 db).user = some (migrateUser now1 t) ∧
    preservedBy t (migrateUser now1 t) ∧
    (init_db now1 db).menu = some (migrateMenu u) ∧
    preservedBy u (migrateMenu u) ∧
    (init_db now1 db).checkout = some (migrateCheckout now1 c) ∧
    preservedBy c (migrateCheckout now1 c) := by
  refine ⟨?_, ?_, migrateUser_preserved hwt now1, ?_, migrateMenu_preserved hwu, ?_,
    migrateCheckout_preserved hwc now1⟩
  · show Database.mk _ _ _ = Database.mk _ _ _
    unfold init_db
    dsimp only [ensureTable]
    rw [migrateUser_idem, migrateMenu_idem, migrateCheckout_idem]
  · unfold init_db
    rw [ht]
    rfl
  · unfold init_db
    rw [hm]
    rfl
  · unfold init_db
    rw [hc]
    rfl

/-- C5 witness: on a concrete one-row-per-table database the migration run
is idempotent and preserves each table additively. -/
theorem C5_init_db_idempotent_additive_witness :
    init_db "t2" (init_db "t1" wDatabase) = init_db "t1" wDatabase ∧
    (init_db "t1" wDatabase).user = some (migrateUser "t1" wUserTable) ∧
    preservedBy wUserTable (migrateUser "t1" wUserTable) ∧
    (init_db "t1" wDatabase).menu = some (migrateMenu wMenuTable) ∧
    preservedBy wMenuTable (migrateMenu wMenuTable) ∧
    (init_db "t1" wDatabase).checkout = some (migrateCheckout "t1" wCheckoutTable) ∧
    preservedBy wCheckoutTable (migrateCheckout "t1" wCheckoutTable) :=
  C5_init_db_idempotent_additive "t1" "t2" wDatabase wUserTable wMenuTable wCheckoutTable
    rfl rfl rfl (by decide) (by decide) (by decide)

end Cafe
